import Mathlib

/-!
Shallow embedding of the rules engine of the single-file Tetris program
(`Tetris.py`).  Only the game logic is modelled: shapes and kick tables,
piece geometry, board collision / locking / line clearing, the T-spin
detector, the 7-bag randomizer, and the `Game` state machine (moves,
rotations, drops, the lock sequence, spawning).  Rendering, fonts, the
pygame event loop, high-score persistence and the purely cosmetic fields
(`ghost_y`, `clear_anim`, `gravity_timer`, `paused`, `last_move_time`) are
presentation/IO concerns and are not part of the embedding; the `hold`
feature is likewise not needed by any property below and is omitted.

Python mutation is rendered as explicit state passing: each operation
returns the new state (paired with the `bool` the Python method returns).
Machine integers are `Int`/`Nat` (Python ints are unbounded, no overflow);
the shuffle performed by `random.shuffle` is an explicit parameter.
-/

/-- Grid width, `COLS = 10` in the source. -/
def COLS : Nat := 10

/-- Grid height including the hidden band, `ROWS = 22`. -/
def ROWS : Nat := 22

/-- Visible rows, `VISIBLE_ROWS = 20`. -/
def VISIBLE_ROWS : Nat := 20

/-- Hidden spawn-buffer rows, `HIDDEN_ROWS = ROWS - VISIBLE_ROWS = 2`. -/
def HIDDEN_ROWS : Nat := ROWS - VISIBLE_ROWS

/-- Lock-delay length in seconds, `LOCK_DELAY = 0.5`. -/
def LOCK_DELAY : ℚ := 1 / 2

/-- Maximal number of lock-delay resets, `LOCK_RESETS_MAX = 15`. -/
def LOCK_RESETS_MAX : Nat := 15

/-- The seven tetromino kinds. -/
inductive Kind where
  | I | J | L | O | S | T | Z
  deriving DecidableEq, Repr

/-- The `last_action` tag of a piece: `'move'` or `'rotate'` (None = none). -/
inductive Act where
  | move | rotate
  deriving DecidableEq, Repr

/-- A board cell: `'.'` is `none`, a locked cell stores the kind character. -/
abbrev Cell := Option Kind

/-- One board row (a Python list of cell characters). -/
abbrev Row := List Cell

/-- The board grid, a list of `ROWS` rows of `COLS` cells. -/
abbrev Grid := List Row

/- ===== SHAPES: the 4x4 character matrices, transcribed verbatim. ===== -/

/-- Shape matrix I, rotation state 0. -/
def shapeI0 : List Char :=
  ['.','.','.','.',
   'X','X','X','X',
   '.','.','.','.',
   '.','.','.','.']

/-- Shape matrix I, rotation state 1. -/
def shapeI1 : List Char :=
  ['.','.','X','.',
   '.','.','X','.',
   '.','.','X','.',
   '.','.','X','.']

/-- Shape matrix I, rotation state 2. -/
def shapeI2 : List Char :=
  ['.','.','.','.',
   '.','.','.','.',
   'X','X','X','X',
   '.','.','.','.']

/-- Shape matrix I, rotation state 3. -/
def shapeI3 : List Char :=
  ['.','X','.','.',
   '.','X','.','.',
   '.','X','.','.',
   '.','X','.','.']

/-- Shape matrix J, rotation state 0. -/
def shapeJ0 : List Char :=
  ['X','.','.','.',
   'X','X','X','.',
   '.','.','.','.',
   '.','.','.','.']

/-- Shape matrix J, rotation state 1. -/
def shapeJ1 : List Char :=
  ['.','X','X','.',
   '.','X','.','.',
   '.','X','.','.',
   '.','.','.','.']

/-- Shape matrix J, rotation state 2. -/
def shapeJ2 : List Char :=
  ['.','.','.','.',
   'X','X','X','.',
   '.','.','X','.',
   '.','.','.','.']

/-- Shape matrix J, rotation state 3. -/
def shapeJ3 : List Char :=
  ['.','X','.','.',
   '.','X','.','.',
   'X','X','.','.',
   '.','.','.','.']

/-- Shape matrix L, rotation state 0. -/
def shapeL0 : List Char :=
  ['.','.','X','.',
   'X','X','X','.',
   '.','.','.','.',
   '.','.','.','.']

/-- Shape matrix L, rotation state 1. -/
def shapeL1 : List Char :=
  ['.','X','.','.',
   '.','X','.','.',
   '.','X','X','.',
   '.','.','.','.']

/-- Shape matrix L, rotation state 2. -/
def shapeL2 : List Char :=
  ['.','.','.','.',
   'X','X','X','.',
   'X','.','.','.',
   '.','.','.','.']

/-- Shape matrix L, rotation state 3. -/
def shapeL3 : List Char :=
  ['X','X','.','.',
   '.','X','.','.',
   '.','X','.','.',
   '.','.','.','.']

/-- Shape matrix O, rotation state 0. -/
def shapeO0 : List Char :=
  ['.','X','X','.',
   '.','X','X','.',
   '.','.','.','.',
   '.','.','.','.']

/-- Shape matrix O, rotation state 1 (identical to state 0 in the source). -/
def shapeO1 : List Char :=
  ['.','X','X','.',
   '.','X','X','.',
   '.','.','.','.',
   '.','.','.','.']

/-- Shape matrix O, rotation state 2 (identical to state 0 in the source). -/
def shapeO2 : List Char :=
  ['.','X','X','.',
   '.','X','X','.',
   '.','.','.','.',
   '.','.','.','.']

/-- Shape matrix O, rotation state 3 (identical to state 0 in the source). -/
def shapeO3 : List Char :=
  ['.','X','X','.',
   '.','X','X','.',
   '.','.','.','.',
   '.','.','.','.']

/-- Shape matrix S, rotation state 0. -/
def shapeS0 : List Char :=
  ['.','X','X','.',
   'X','X','.','.',
   '.','.','.','.',
   '.','.','.','.']

/-- Shape matrix S, rotation state 1. -/
def shapeS1 : List Char :=
  ['.','X','.','.',
   '.','X','X','.',
   '.','.','X','.',
   '.','.','.','.']

/-- Shape matrix S, rotation state 2. -/
def shapeS2 : List Char :=
  ['.','.','.','.',
   '.','X','X','.',
   'X','X','.','.',
   '.','.','.','.']

/-- Shape matrix S, rotation state 3. -/
def shapeS3 : List Char :=
  ['X','.','.','.',
   'X','X','.','.',
   '.','X','.','.',
   '.','.','.','.']

/-- Shape matrix T, rotation state 0. -/
def shapeT0 : List Char :=
  ['.','X','.','.',
   'X','X','X','.',
   '.','.','.','.',
   '.','.','.','.']

/-- Shape matrix T, rotation state 1. -/
def shapeT1 : List Char :=
  ['.','X','.','.',
   '.','X','X','.',
   '.','X','.','.',
   '.','.','.','.']

/-- Shape matrix T, rotation state 2. -/
def shapeT2 : List Char :=
  ['.','.','.','.',
   'X','X','X','.',
   '.','X','.','.',
   '.','.','.','.']

/-- Shape matrix T, rotation state 3. -/
def shapeT3 : List Char :=
  ['.','X','.','.',
   'X','X','.','.',
   '.','X','.','.',
   '.','.','.','.']

/-- Shape matrix Z, rotation state 0. -/
def shapeZ0 : List Char :=
  ['X','X','.','.',
   '.','X','X','.',
   '.','.','.','.',
   '.','.','.','.']

/-- Shape matrix Z, rotation state 1. -/
def shapeZ1 : List Char :=
  ['.','.','X','.',
   '.','X','X','.',
   '.','X','.','.',
   '.','.','.','.']

/-- Shape matrix Z, rotation state 2. -/
def shapeZ2 : List Char :=
  ['.','.','.','.',
   'X','X','.','.',
   '.','X','X','.',
   '.','.','.','.']

/-- Shape matrix Z, rotation state 3. -/
def shapeZ3 : List Char :=
  ['.','X','.','.',
   'X','X','.','.',
   'X','.','.','.',
   '.','.','.','.']

/-- `SHAPES[kind][rot]`.  In the source `rot` is always kept in `{0,1,2,3}`
(it is only ever assigned `(r ± d) % 4`); the Python list indexing is
totalized here by reducing the index mod 4. -/
def SHAPES (k : Kind) (r : Nat) : List Char :=
  let s := r % 4
  match k with
  | .I => if s = 0 then shapeI0 else if s = 1 then shapeI1 else if s = 2 then shapeI2 else shapeI3
  | .J => if s = 0 then shapeJ0 else if s = 1 then shapeJ1 else if s = 2 then shapeJ2 else shapeJ3
  | .L => if s = 0 then shapeL0 else if s = 1 then shapeL1 else if s = 2 then shapeL2 else shapeL3
  | .O => if s = 0 then shapeO0 else if s = 1 then shapeO1 else if s = 2 then shapeO2 else shapeO3
  | .S => if s = 0 then shapeS0 else if s = 1 then shapeS1 else if s = 2 then shapeS2 else shapeS3
  | .T => if s = 0 then shapeT0 else if s = 1 then shapeT1 else if s = 2 then shapeT2 else shapeT3
  | .Z => if s = 0 then shapeZ0 else if s = 1 then shapeZ1 else if s = 2 then shapeZ2 else shapeZ3

/-- `JLSTZ_KICKS.get((frm,to), [(0,0)])`: the shared SRS kick table, with
the `dict.get` default for absent keys. -/
def JLSTZ_KICKS (t : Nat × Nat) : List (Int × Int) :=
  match t with
  | (0,1) => [(0,0), (-1,0), (-1,-1), (0,2), (-1,2)]
  | (1,0) => [(0,0), (1,0), (1,1), (0,-2), (1,-2)]
  | (1,2) => [(0,0), (1,0), (1,1), (0,-2), (1,-2)]
  | (2,1) => [(0,0), (-1,0), (-1,-1), (0,2), (-1,2)]
  | (2,3) => [(0,0), (1,0), (1,-1), (0,2), (1,2)]
  | (3,2) => [(0,0), (-1,0), (-1,1), (0,-2), (-1,-2)]
  | (3,0) => [(0,0), (-1,0), (-1,1), (0,-2), (-1,-2)]
  | (0,3) => [(0,0), (1,0), (1,-1), (0,2), (1,2)]
  | _ => [(0,0)]

/-- `I_KICKS.get((frm,to), [(0,0)])`: the I-piece SRS kick table. -/
def I_KICKS (t : Nat × Nat) : List (Int × Int) :=
  match t with
  | (0,1) => [(0,0), (-2,0), (1,0), (-2,-1), (1,2)]
  | (1,0) => [(0,0), (2,0), (-1,0), (2,1), (-1,-2)]
  | (1,2) => [(0,0), (-1,0), (2,0), (-1,2), (2,-1)]
  | (2,1) => [(0,0), (1,0), (-2,0), (1,-2), (-2,1)]
  | (2,3) => [(0,0), (2,0), (-1,0), (2,1), (-1,-2)]
  | (3,2) => [(0,0), (-2,0), (1,0), (-2,-1), (1,2)]
  | (3,0) => [(0,0), (1,0), (-2,0), (1,-2), (-2,1)]
  | (0,3) => [(0,0), (-1,0), (2,0), (-1,2), (2,-1)]
  | _ => [(0,0)]

/-- The line-clear classes used as keys of `SCORE_TABLE`. -/
inductive LineType where
  | single | double | triple | tetris
  | tspin_mini_single | tspin_single | tspin_double | tspin_triple
  deriving DecidableEq, Repr

/-- `SCORE_TABLE`. -/
def SCORE_TABLE : LineType → Int
  | .single => 100
  | .double => 300
  | .triple => 500
  | .tetris => 800
  | .tspin_mini_single => 200
  | .tspin_single => 800
  | .tspin_double => 1200
  | .tspin_triple => 1600

/-- The active piece (`class Piece`): kind, rotation state, anchor position
of its 4x4 matrix, the last state-changing action, and its (unused by the
game logic, but carried) `lock_resets` field. -/
structure Piece where
  kind : Kind
  rot : Nat
  x : Int
  y : Int
  last_action : Option Act
  lock_resets : Nat
  deriving DecidableEq, Repr

/-- `Piece.__init__(kind)`: spawn state.  `x=3, y=-1`, except the O kind
which spawns at `y = 0 - HIDDEN_ROWS = -2`. -/
def Piece.init (k : Kind) : Piece :=
  { kind := k
    rot := 0
    x := 3
    y := if k = Kind.O then 0 - (HIDDEN_ROWS : Int) else -1
    last_action := none
    lock_resets := 0 }

/-- `Piece.cells()`: the absolute coordinates of the `'X'` entries of the
current 4x4 shape matrix: for `i` in `range(16)` with `s[i] == 'X'`,
the cell `(x + i % 4, y + i / 4)`. -/
def Piece.cells (p : Piece) : List (Int × Int) :=
  (List.range 16).filterMap (fun i =>
    if (SHAPES p.kind p.rot).getD i '.' == 'X' then
      some (p.x + ((i % 4 : Nat) : Int), p.y + ((i / 4 : Nat) : Int))
    else none)

/-- `Board.inside(x, y)`: `0 <= x < COLS and y < ROWS` (no lower bound on
`y`: the hidden area above the grid is allowed). -/
def inside (x y : Int) : Bool :=
  decide (0 ≤ x ∧ x < (COLS : Int) ∧ y < (ROWS : Int))

/-- Read `grid[y][x]` (only meaningful when the indices are in range,
which every caller checks first). -/
def cellAt (g : Grid) (x y : Int) : Cell :=
  (g.getD y.toNat []).getD x.toNat none

/-- `Board.collide(piece)`: a cell with `y < 0` is skipped (spawn buffer);
otherwise the piece collides if the cell is outside the field or the grid
is occupied there. -/
def collide (g : Grid) (p : Piece) : Bool :=
  p.cells.any (fun c =>
    if c.2 < 0 then false
    else !(inside c.1 c.2) || !(cellAt g c.1 c.2 == none))

/-- Write a single cell of the grid. -/
def setCell (g : Grid) (x y : Int) (k : Kind) : Grid :=
  g.set y.toNat ((g.getD y.toNat []).set x.toNat (some k))

/-- `Board.lock(piece)`: write the piece's kind into every cell with
`0 <= y < ROWS and 0 <= x < COLS`. -/
def boardLock (g : Grid) (p : Piece) : Grid :=
  p.cells.foldl (fun b c =>
    if 0 ≤ c.2 ∧ c.2 < (ROWS : Int) ∧ 0 ≤ c.1 ∧ c.1 < (COLS : Int) then
      setCell b c.1 c.2 p.kind
    else b) g

/-- A row is full iff all its cells are non-empty
(`all(c != '.' for c in grid[i])`). -/
def rowFull (r : Row) : Bool :=
  r.all (fun c => !(c == none))

/-- The empty row `['.'] * COLS`. -/
def emptyRow : Row := List.replicate COLS none

/-- `full = [i for i in range(ROWS) if all(c != '.' for c in grid[i])]`:
the indices of the full rows (the grid always has `ROWS` rows, so
`range(ROWS)` is its index range). -/
def fullIndices (g : Grid) : List Nat :=
  (List.range g.length).filter (fun i => rowFull (g.getD i []))

/-- One iteration of the clearing loop: `del grid[i]` followed by
`grid.insert(0, empty_row)`. -/
def clearStep (g : Grid) (i : Nat) : Grid :=
  emptyRow :: g.eraseIdx i

/-- `Board.clear_lines()`: delete each full row (at its original index,
in ascending order) and push an empty row on top; return the new grid,
the number of cleared rows and their original indices. -/
def clear_lines (g : Grid) : Grid × Nat × List Nat :=
  let full := fullIndices g
  (full.foldl clearStep g, full.length, full)

/-- `Board.topped_out()`: any occupied cell in the hidden band. -/
def topped_out (g : Grid) : Bool :=
  (List.range HIDDEN_ROWS).any (fun y =>
    (List.range COLS).any (fun x => !((g.getD y []).getD x none == none)))

/- ===== Rotation with wall kicks. ===== -/

/-- The Python rotation-state update `(rot + dir) % 4` (`dir` may be
negative; Python `%` and Lean's `Int` `%` both return a value in `[0,4)`). -/
def rotAdd (r : Nat) (dir : Int) : Nat :=
  (((r : Int) + dir) % 4).toNat

/-- `rotate_with_kick(board, piece, dir)`: `dir = +1` clockwise, `-1`
counterclockwise, `2` for 180 degrees.  Returns the Python `bool` together
with the resulting piece.  On failure every branch of the source restores
`x`, `y` and `rot` (the O branch recomputes `rot` as `(rot - dir) % 4`,
the 180 branch undoes each offset and restores the saved `old_rot`, the
kick branch restores the saved `oldx, oldy, oldrot`), so the failing
results below are the rolled-back pieces. -/
def rotate_with_kick (g : Grid) (p : Piece) (dir : Int) : Bool × Piece :=
  if p.kind == Kind.O && (dir == 1 || dir == -1) then
    let r1 := rotAdd p.rot dir
    if collide g { p with rot := r1 } then
      (false, { p with rot := (((r1 : Int) - dir) % 4).toNat })
    else
      (true, { p with rot := r1, last_action := some Act.rotate })
  else if dir == 2 then
    let target := (p.rot + 2) % 4
    let kicks : List (Int × Int) := [(0,0), (1,0), (-1,0), (0,1), (0,-1), (2,0), (-2,0)]
    match kicks.find? (fun d =>
        !collide g { p with rot := target, x := p.x + d.1, y := p.y + d.2 }) with
    | some d =>
        (true, { p with rot := target, x := p.x + d.1, y := p.y + d.2,
                        last_action := some Act.rotate })
    | none => (false, p)
  else
    let toSt := rotAdd p.rot dir
    let kicks := if p.kind == Kind.I then I_KICKS (p.rot, toSt) else JLSTZ_KICKS (p.rot, toSt)
    match kicks.find? (fun d =>
        !collide g { p with rot := toSt, x := p.x + d.1, y := p.y + d.2 }) with
    | some d =>
        (true, { p with rot := toSt, x := p.x + d.1, y := p.y + d.2,
                        last_action := some Act.rotate })
    | none => (false, p)

/- ===== T-spin detection. ===== -/

/-- The four diagonal corners around the T center `(x+1, y+1)`. -/
def cornerCells (p : Piece) : List (Int × Int) :=
  let cx := p.x + 1
  let cy := p.y + 1
  [(cx-1, cy-1), (cx+1, cy-1), (cx-1, cy+1), (cx+1, cy+1)]

/-- A corner counts as occupied when it is outside `[0,COLS) x [0,ROWS)`
or the grid holds a locked cell there. -/
def occCell (g : Grid) (c : Int × Int) : Bool :=
  if !(decide (0 ≤ c.1 ∧ c.1 < (COLS : Int) ∧ 0 ≤ c.2 ∧ c.2 < (ROWS : Int))) then
    true
  else
    !(cellAt g c.1 c.2 == none)

/-- The number of occupied cells among a corner list. -/
def occCount (g : Grid) (cs : List (Int × Int)) : Nat :=
  cs.countP (occCell g)

/-- The two front corners selected by the rotation state
(`0` top, `1` right, `2` bottom, `3` left).  In the source the lookup is a
dict keyed by `piece.rot`, whose keys are exactly `{0,1,2,3}`; the
invariant `rot` in `{0,1,2,3}` is totalized with `% 4`. -/
def frontCells (p : Piece) : List (Int × Int) :=
  let cx := p.x + 1
  let cy := p.y + 1
  match p.rot % 4 with
  | 0 => [(cx-1, cy-1), (cx+1, cy-1)]
  | 1 => [(cx+1, cy-1), (cx+1, cy+1)]
  | 2 => [(cx-1, cy+1), (cx+1, cy+1)]
  | _ => [(cx-1, cy-1), (cx-1, cy+1)]

/-- `is_tspin(board, piece, lines, last_action) -> (is_tspin, is_mini)`:
only for a T piece whose last action was a rotation with `lines > 0`; at
least 3 of the 4 corners must be occupied; mini iff exactly one front
corner is occupied and exactly one line cleared. -/
def is_tspin (g : Grid) (p : Piece) (lines : Nat) (last_action : Option Act) :
    Bool × Bool :=
  if !(p.kind == Kind.T) || !(last_action == some Act.rotate) || lines == 0 then
    (false, false)
  else if occCount g (cornerCells p) < 3 then
    (false, false)
  else
    (true, (occCount g (frontCells p) == 1) && (lines == 1))

/- ===== The 7-bag randomizer. ===== -/

/-- The refill order produced by `random.shuffle(list('IJLOSTZ'))` is an
arbitrary permutation of the seven kinds; it is passed in explicitly as
`shuffle`.  `Bag.pop()`: refill the pool when it is empty, then pop the
front element (`pool.pop(0)`; the pool is never empty after a refill, the
`headD` default is unreachable). -/
def bag_pop (shuffle pool : List Kind) : Kind × List Kind :=
  let pool' := if pool.isEmpty then pool ++ shuffle else pool
  (pool'.headD Kind.I, pool'.tail)

/-- `n` consecutive `Bag.pop()` calls starting from `pool`, all refills
drawing the same `shuffle` (at most one refill occurs in the windows we
study). -/
def bag_pops (shuffle : List Kind) : Nat → List Kind → List Kind
  | 0, _ => []
  | n+1, pool =>
      let r := bag_pop shuffle pool
      r.1 :: bag_pops shuffle n r.2

/-- The kinds list `list('IJLOSTZ')` that every refill shuffles. -/
def bagKinds : List Kind :=
  [Kind.I, Kind.J, Kind.L, Kind.O, Kind.S, Kind.T, Kind.Z]

/- ===== The game state machine. ===== -/

/-- The session state of `class Game`, restricted to the fields the game
logic reads or writes (display-only fields and the hold feature are
omitted, see the header comment).  The queue is represented by its item
buffer and the bag by its pool; `lock_timer` is `None` or a number of
seconds. -/
structure Game where
  board : Grid
  cur : Piece
  queue_items : List Kind
  bag_pool : List Kind
  score : Int
  lines : Nat
  level : Nat
  combo : Int
  b2b : Bool
  drop_distance_soft : Nat
  drop_distance_hard : Nat
  lock_timer : Option ℚ
  lock_reset_count : Nat
  game_over : Bool
  deriving DecidableEq, Repr

/-- `Game.spawn()`: pop the next kind from the queue (`Queue.next()`
pops the buffer front and appends a fresh `Bag.pop()`), build a fresh
piece, detect top-out by immediate collision, clear the lock timer and
its reset counter.  The queue buffer is maintained non-empty by the
program (`preview + 1` items), so the `headD` default is unreachable. -/
def Game.spawn (shuffle : List Kind) (g : Game) : Game :=
  let n := g.queue_items.headD Kind.I
  let r := bag_pop shuffle g.bag_pool
  let cur' := Piece.init n
  { g with
    cur := cur'
    queue_items := g.queue_items.tail ++ [r.1]
    bag_pool := r.2
    game_over := g.game_over || collide g.board cur'
    lock_timer := none
    lock_reset_count := 0 }

/-- `Game.on_ground()`: the piece one row down collides. -/
def Game.on_ground (g : Game) : Bool :=
  collide g.board { g.cur with y := g.cur.y + 1 }

/-- `Game.try_move(dx, dy)`: translate, roll back on collision; on
success tag the last action as a move, and a grounded (`dy == 0` with a
running lock timer) move resets the timer while fewer than
`LOCK_RESETS_MAX` resets have been used. -/
def Game.try_move (g : Game) (dx dy : Int) : Bool × Game :=
  let moved := { g.cur with x := g.cur.x + dx, y := g.cur.y + dy }
  if collide g.board moved then
    (false, g)
  else
    let cur' := { moved with last_action := some Act.move }
    if dy = 0 ∧ ¬ g.lock_timer = none ∧ g.lock_reset_count < LOCK_RESETS_MAX then
      (true, { g with cur := cur', lock_timer := some 0,
                      lock_reset_count := g.lock_reset_count + 1 })
    else
      (true, { g with cur := cur' })

/-- `Game.try_rotate(dir)`: delegate to `rotate_with_kick`; on success a
running lock timer is reset subject to the same bounded counter. -/
def Game.try_rotate (g : Game) (dir : Int) : Bool × Game :=
  let r := rotate_with_kick g.board g.cur dir
  if r.1 then
    if ¬ g.lock_timer = none ∧ g.lock_reset_count < LOCK_RESETS_MAX then
      (true, { g with cur := r.2, lock_timer := some 0,
                      lock_reset_count := g.lock_reset_count + 1 })
    else
      (true, { g with cur := r.2 })
  else
    (false, g)

/-- `Game.soft_drop()`: a down nudge; each accepted cell adds one to the
pending soft-drop credit. -/
def Game.soft_drop (g : Game) : Bool × Game :=
  let r := g.try_move 0 1
  if r.1 then
    (true, { r.2 with drop_distance_soft := r.2.drop_distance_soft + 1 })
  else
    (false, r.2)

/-- The board after `self.board.lock(self.cur)`. -/
def Game.postLockBoard (g : Game) : Grid :=
  boardLock g.board g.cur

/-- The result of `self.board.clear_lines()` inside the lock sequence. -/
def Game.postClear (g : Game) : Grid × Nat × List Nat :=
  clear_lines g.postLockBoard

/-- The `(tspin, mini)` pair computed by the lock sequence: the detector
runs against the post-clear board, the locked piece, the cleared count
and the piece's last action. -/
def Game.lockTspin (g : Game) : Bool × Bool :=
  is_tspin g.postClear.1 g.cur g.postClear.2.1 g.cur.last_action

/-- The `line_type` / `is_b2b_type` chain of `Game.lock_piece`:
for a T-spin the clear is back-to-back eligible and classified by the
cleared count (mini only for a single); otherwise single/double/triple,
or a back-to-back-eligible tetris for four lines. -/
def classifyClear (tspin mini : Bool) (cleared : Nat) : Option LineType × Bool :=
  if tspin then
    (if cleared = 1 then some (if mini then LineType.tspin_mini_single else LineType.tspin_single)
     else if cleared = 2 then some LineType.tspin_double
     else if cleared = 3 then some LineType.tspin_triple
     else none,
     true)
  else
    if cleared = 1 then (some LineType.single, false)
    else if cleared = 2 then (some LineType.double, false)
    else if cleared = 3 then (some LineType.triple, false)
    else if cleared = 4 then (some LineType.tetris, true)
    else (none, false)

/-- `Game.lock_piece()`: write the piece, credit the pending drop
distances (`soft * 1 + hard * 2`) and clear them, clear full lines, run
the T-spin detector, classify and score the clear (back-to-back gives
`int(base * 1.5)`, exact for every table value as `base * 3 / 2`; combo
adds `50 * combo`), update the line total and the level
(`1 + lines // 10`), then spawn the next piece.  A non-clearing lock
resets the combo and leaves the back-to-back flag untouched. -/
def Game.lock_piece (shuffle : List Kind) (g : Game) : Game :=
  let b2 := g.postClear.1
  let cleared := g.postClear.2.1
  let ts := g.lockTspin
  let cls := classifyClear ts.1 ts.2 cleared
  let score1 := g.score + (g.drop_distance_soft : Int) * 1 + (g.drop_distance_hard : Int) * 2
  match cls.1 with
  | some t =>
      let base0 := SCORE_TABLE t
      let base1 := if cls.2 && g.b2b then base0 * 3 / 2 else base0
      let combo' := if 0 ≤ g.combo then g.combo + 1 else 0
      Game.spawn shuffle
        { g with
          board := b2
          score := score1 + base1 + 50 * combo'
          b2b := cls.2
          combo := combo'
          lines := g.lines + cleared
          level := 1 + (g.lines + cleared) / 10
          drop_distance_soft := 0
          drop_distance_hard := 0 }
  | none =>
      Game.spawn shuffle
        { g with
          board := b2
          score := score1
          combo := -1
          level := 1 + g.lines / 10
          drop_distance_soft := 0
          drop_distance_hard := 0 }

/-- The piece moved down by `n` rows. -/
def pieceDown (p : Piece) (n : Nat) : Piece :=
  { p with y := p.y + (n : Int) }

/-- Every shape matrix contains an `'X'` (so every piece occupies at
least one cell and a falling piece eventually collides with the floor). -/
theorem shape_has_cell (k : Kind) (r : Nat) :
    (List.range 16).any (fun i => (SHAPES k r).getD i '.' == 'X') = true := by
  have h : r % 4 = 0 ∨ r % 4 = 1 ∨ r % 4 = 2 ∨ r % 4 = 3 := by omega
  cases k <;> rcases h with h | h | h | h <;> simp [SHAPES, h] <;> decide

/-- Moving any piece far enough down always collides (its cells leave the
bottom of the field), so the hard-drop loop terminates. -/
theorem exists_collide_down (g : Grid) (p : Piece) :
    ∃ n : Nat, collide g (pieceDown p (n + 1)) = true := by
  have hany := shape_has_cell p.kind p.rot
  rw [List.any_eq_true] at hany
  obtain ⟨i, hi, hx⟩ := hany
  refine ⟨(22 - p.y).toNat + 3, ?_⟩
  rw [collide, List.any_eq_true]
  refine ⟨((pieceDown p ((22 - p.y).toNat + 3 + 1)).x + ((i % 4 : Nat) : Int),
           (pieceDown p ((22 - p.y).toNat + 3 + 1)).y + ((i / 4 : Nat) : Int)), ?_, ?_⟩
  · rw [Piece.cells, List.mem_filterMap]
    exact ⟨i, hi, by rw [show (pieceDown p ((22 - p.y).toNat + 3 + 1)).rot = p.rot from rfl,
      show (pieceDown p ((22 - p.y).toNat + 3 + 1)).kind = p.kind from rfl, hx]; rfl⟩
  · have h1 : (22 - p.y) ≤ (((22 - p.y).toNat : Int)) := Int.self_le_toNat _
    have h2 : (ROWS : Int) = 22 := rfl
    have h3 : (pieceDown p ((22 - p.y).toNat + 3 + 1)).y
        = p.y + (((22 - p.y).toNat + 3 + 1 : Nat) : Int) := rfl
    have hy : (ROWS : Int) ≤ (pieceDown p ((22 - p.y).toNat + 3 + 1)).y + ((i / 4 : Nat) : Int) := by
      rw [h3, h2]
      push_cast
      omega
    dsimp only
    have hylt : ¬ ((pieceDown p ((22 - p.y).toNat + 3 + 1)).y + ((i / 4 : Nat) : Int) < 0) := by
      omega
    rw [if_neg hylt]
    have hins : inside ((pieceDown p ((22 - p.y).toNat + 3 + 1)).x + ((i % 4 : Nat) : Int))
        ((pieceDown p ((22 - p.y).toNat + 3 + 1)).y + ((i / 4 : Nat) : Int)) = false := by
      rw [inside, decide_eq_false_iff_not]
      intro hcon
      omega
    rw [hins]
    rfl

/-- The number of cells a hard drop travels: the Python loop
`while try_move(0,1): dist += 1` succeeds exactly while the piece one row
further down does not collide, so `dist` is the least `n` such that the
piece moved down `n + 1` rows collides. -/
def hardDropDist (g : Grid) (p : Piece) : Nat :=
  Nat.find (exists_collide_down g p)

/-- The drop phase of `Game.hard_drop()`: the loop's successful
`try_move(0,1)` calls move the piece down one row each and tag it as
moved (`dy = 1` never touches the lock timer), and the travelled distance
is added to the pending hard-drop credit. -/
def Game.dropPhase (g : Game) : Game :=
  let d := hardDropDist g.board g.cur
  let cur' := if d = 0 then g.cur
              else { g.cur with y := g.cur.y + (d : Int), last_action := some Act.move }
  { g with cur := cur', drop_distance_hard := g.drop_distance_hard + d }

/-- `Game.hard_drop()`: fall to the bottom, then lock immediately. -/
def Game.hard_drop (shuffle : List Kind) (g : Game) : Game :=
  Game.lock_piece shuffle g.dropPhase

/-- The score gained from the line-clear classification of a lock (base
value, back-to-back adjustment and combo bonus); `0` when no line
cleared.  `Game.lock_piece` adds exactly this on top of the drop credits. -/
def Game.clearGain (g : Game) : Int :=
  let cleared := g.postClear.2.1
  let ts := g.lockTspin
  let cls := classifyClear ts.1 ts.2 cleared
  match cls.1 with
  | some t =>
      let base0 := SCORE_TABLE t
      let base1 := if cls.2 && g.b2b then base0 * 3 / 2 else base0
      let combo' := if 0 ≤ g.combo then g.combo + 1 else 0
      base1 + 50 * combo'
  | none => 0

/- ===== General lemmas and concrete states used by the witnesses. ===== -/

/-- `Board.__init__`: a fresh grid is `ROWS` rows of `COLS` empty cells. -/
def emptyGrid : Grid := List.replicate ROWS (List.replicate COLS none)

/-- Collision only looks at the piece through its cell list. -/
theorem collide_congr (g : Grid) (p q : Piece) (h : p.cells = q.cells) :
    collide g p = collide g q := by
  unfold collide
  rw [h]

/-- All four O-shape matrices are the same list. -/
theorem SHAPES_O (r : Nat) : SHAPES Kind.O r = shapeO0 := by
  have h : r % 4 = 0 ∨ r % 4 = 1 ∨ r % 4 = 2 ∨ r % 4 = 3 := by omega
  rcases h with h | h | h | h <;>
    simp [SHAPES, h, shapeO0, shapeO1, shapeO2, shapeO3]

/-- The occupied cells of an O piece do not depend on its rotation state
or bookkeeping fields, only on its position. -/
theorem cells_O_mk (r r' : Nat) (x y : Int) (la la' : Option Act) (lr lr' : Nat) :
    Piece.cells ⟨Kind.O, r, x, y, la, lr⟩ = Piece.cells ⟨Kind.O, r', x, y, la', lr'⟩ := by
  simp only [Piece.cells, SHAPES_O]


/-- A concrete session used by the reset-cap witness: empty board, a T at
spawn, a running lock timer and all 15 resets already consumed. -/
def c4Game : Game :=
  { board := emptyGrid
    cur := Piece.init Kind.T
    queue_items := [Kind.I, Kind.J, Kind.L]
    bag_pool := [Kind.S]
    score := 0
    lines := 0
    level := 1
    combo := -1
    b2b := false
    drop_distance_soft := 0
    drop_distance_hard := 0
    lock_timer := some 0
    lock_reset_count := 15
    game_over := false }

/-- C4: once `LOCK_RESETS_MAX = 15` lock-delay resets have been consumed,
any further `try_move` or `try_rotate` (successful or not) leaves both the
running lock-delay timer and the reset counter unchanged, so the pending
lock is not delayed further. -/
theorem lock_resets_capped (g : Game) (dx dy dir : Int)
    (h : LOCK_RESETS_MAX ≤ g.lock_reset_count) :
    (g.try_move dx dy).2.lock_timer = g.lock_timer
    ∧ (g.try_move dx dy).2.lock_reset_count = g.lock_reset_count
    ∧ (g.try_rotate dir).2.lock_timer = g.lock_timer
    ∧ (g.try_rotate dir).2.lock_reset_count = g.lock_reset_count := by
  have hnot : ¬ (dy = 0 ∧ ¬ g.lock_timer = none ∧ g.lock_reset_count < LOCK_RESETS_MAX) := by
    rintro ⟨_, _, hlt⟩
    omega
  have hnot2 : ¬ (¬ g.lock_timer = none ∧ g.lock_reset_count < LOCK_RESETS_MAX) := by
    rintro ⟨_, hlt⟩
    omega
  refine ⟨?_, ?_, ?_, ?_⟩
  · simp only [Game.try_move, if_neg hnot]
    split
    · rfl
    · rfl
  · simp only [Game.try_move, if_neg hnot]
    split
    · rfl
    · rfl
  · simp only [Game.try_rotate, if_neg hnot2]
    split
    · rfl
    · rfl
  · simp only [Game.try_rotate, if_neg hnot2]
    split
    · rfl
    · rfl

/-- Witness for C4 at a concrete state with all 15 resets used. -/
theorem lock_resets_capped_witness :
    LOCK_RESETS_MAX ≤ c4Game.lock_reset_count
    ∧ ((c4Game.try_move 1 0).2.lock_timer = c4Game.lock_timer
       ∧ (c4Game.try_move 1 0).2.lock_reset_count = c4Game.lock_reset_count
       ∧ (c4Game.try_rotate 1).2.lock_timer = c4Game.lock_timer
       ∧ (c4Game.try_rotate 1).2.lock_reset_count = c4Game.lock_reset_count) :=
  ⟨by decide, lock_resets_capped c4Game 1 0 1 (by decide)⟩

/-- A concrete session used by the grounded-move witness: empty board and
a grounded T (rows 20 and 21) with a running lock timer and 3 resets used. -/
def c5Game : Game :=
  { board := emptyGrid
    cur := { kind := Kind.T, rot := 0, x := 3, y := 20,
             last_action := none, lock_resets := 0 }
    queue_items := [Kind.I, Kind.J, Kind.L]
    bag_pool := [Kind.S]
    score := 0
    lines := 0
    level := 1
    combo := -1
    b2b := false
    drop_distance_soft := 0
    drop_distance_hard := 0
    lock_timer := some 0
    lock_reset_count := 3
    game_over := false }

/-- C5: with a running lock-delay timer and fewer than 15 resets used,
every successful horizontal move resets the timer to zero and tags the
piece as moved; and while the piece is grounded a down move cannot succeed
at all (so the down-move half of the claim holds vacuously). -/
theorem grounded_move_resets_timer (g : Game) (t : ℚ) (dx : Int)
    (h1 : g.lock_timer = some t)
    (h2 : g.lock_reset_count < LOCK_RESETS_MAX)
    (h3 : g.on_ground = true) :
    ((g.try_move dx 0).1 = true →
      (g.try_move dx 0).2.lock_timer = some 0
      ∧ (g.try_move dx 0).2.cur.last_action = some Act.move)
    ∧ (g.try_move 0 1).1 = false := by
  constructor
  · intro hs
    have hcond : True ∧ ¬ g.lock_timer = none ∧ g.lock_reset_count < LOCK_RESETS_MAX :=
      ⟨trivial, by rw [h1]; simp, h2⟩
    simp only [Game.try_move] at hs ⊢
    split at hs
    case isTrue => exact absurd hs (by simp)
    case isFalse h =>
      rw [if_neg h, if_pos hcond]
      exact ⟨rfl, rfl⟩
  · have hpe : { g.cur with x := g.cur.x + 0, y := g.cur.y + 1 }
        = { g.cur with y := g.cur.y + 1 } := by
      cases g.cur
      simp
    have hcol : collide g.board { g.cur with x := g.cur.x + 0, y := g.cur.y + 1 } = true := by
      rw [hpe]
      exact h3
    simp only [Game.try_move, if_pos hcol]

/-- Witness for C5 at a concrete grounded state; the horizontal move to
the right succeeds there. -/
theorem grounded_move_resets_timer_witness :
    c5Game.lock_timer = some 0
    ∧ c5Game.lock_reset_count < LOCK_RESETS_MAX
    ∧ c5Game.on_ground = true
    ∧ (c5Game.try_move 1 0).1 = true
    ∧ (((c5Game.try_move 1 0).1 = true →
        (c5Game.try_move 1 0).2.lock_timer = some 0
        ∧ (c5Game.try_move 1 0).2.cur.last_action = some Act.move)
       ∧ (c5Game.try_move 0 1).1 = false) :=
  ⟨rfl, by decide, by decide, by decide,
   grounded_move_resets_timer c5Game 0 1 rfl (by decide) (by decide)⟩

/-- A board that is fully occupied except for the cells of a T piece in
spawn orientation at `(3, 18)`: every rotation attempt must fail there. -/
def c7Board : Grid :=
  (List.range ROWS).map (fun y => (List.range COLS).map (fun x =>
    if (y = 18 ∧ x = 4) ∨ (y = 19 ∧ (x = 3 ∨ x = 4 ∨ x = 5)) then none else some Kind.J))

/-- The boxed-in T used by the rotation-rollback witness. -/
def c7Piece : Piece :=
  { kind := Kind.T, rot := 0, x := 3, y := 18, last_action := none, lock_resets := 0 }

/-- C7: a failing rotation attempt (any direction) leaves the piece's
position and rotation state exactly as they were: the source restores the
saved `oldx, oldy, oldrot` (kick branch), undoes every offset and restores
`old_rot` (180 branch), or recomputes `(rot - dir) % 4` (O branch, which
returns the original state whenever `rot` is in its invariant range
`{0,1,2,3}`). -/
theorem rotate_fail_rollback (g : Grid) (p : Piece) (dir : Int)
    (hr : p.rot < 4) (h : (rotate_with_kick g p dir).1 = false) :
    (rotate_with_kick g p dir).2.x = p.x
    ∧ (rotate_with_kick g p dir).2.y = p.y
    ∧ (rotate_with_kick g p dir).2.rot = p.rot := by
  obtain ⟨pk, pr, px, py, pla, plr⟩ := p
  simp only at hr
  revert h
  simp only [rotate_with_kick]
  split
  case isTrue hO =>
    split
    case isTrue hc =>
      intro _
      refine ⟨rfl, rfl, ?_⟩
      simp only [Bool.and_eq_true, beq_iff_eq, Bool.or_eq_true] at hO
      obtain ⟨hk, hdir⟩ := hO
      simp only [rotAdd]
      rcases hdir with hd | hd <;> subst hd <;> interval_cases pr <;> decide
    case isFalse hc =>
      intro h
      exact absurd h (by simp)
  case isFalse hO =>
    split
    case isTrue h2 =>
      split
      case h_1 d heq =>
        intro h
        exact absurd h (by simp)
      case h_2 heq =>
        intro _
        exact ⟨rfl, rfl, rfl⟩
    case isFalse h2 =>
      split
      case h_1 d heq =>
        intro h
        exact absurd h (by simp)
      case h_2 heq =>
        intro _
        exact ⟨rfl, rfl, rfl⟩

/-- Witness for C7: the clockwise rotation of the boxed-in T fails and
the piece is returned bit-for-bit unchanged. -/
theorem rotate_fail_rollback_witness :
    c7Piece.rot < 4
    ∧ (rotate_with_kick c7Board c7Piece 1).1 = false
    ∧ ((rotate_with_kick c7Board c7Piece 1).2.x = c7Piece.x
       ∧ (rotate_with_kick c7Board c7Piece 1).2.y = c7Piece.y
       ∧ (rotate_with_kick c7Board c7Piece 1).2.rot = c7Piece.rot) :=
  ⟨by decide, by decide, rotate_fail_rollback c7Board c7Piece 1 (by decide) (by decide)⟩

/-- C9: rotating an O piece that sits in a non-colliding position never
fails (clockwise, counterclockwise or 180 degrees) and leaves its
position and occupied-cell set unchanged (all four O shape matrices are
identical, and the 180-degree branch accepts its first offset `(0,0)`). -/
theorem o_rotation_noop (g : Grid) (p : Piece) (dir : Int)
    (hk : p.kind = Kind.O) (hnc : collide g p = false)
    (hdir : dir = 1 ∨ dir = -1 ∨ dir = 2) :
    (rotate_with_kick g p dir).1 = true
    ∧ (rotate_with_kick g p dir).2.cells = p.cells
    ∧ (rotate_with_kick g p dir).2.x = p.x
    ∧ (rotate_with_kick g p dir).2.y = p.y := by
  obtain ⟨pk, pr, px, py, pla, plr⟩ := p
  simp only at hk
  subst hk
  have hcells : ∀ r' la', Piece.cells ⟨Kind.O, r', px, py, la', plr⟩
      = Piece.cells ⟨Kind.O, pr, px, py, pla, plr⟩ :=
    fun r' la' => cells_O_mk r' pr px py la' pla plr plr
  rcases hdir with hd | hd | hd <;> subst hd
  · have hO : (Kind.O == Kind.O && ((1:Int) == 1 || (1:Int) == -1)) = true := by decide
    have hc : ¬ collide g ⟨Kind.O, rotAdd pr 1, px, py, pla, plr⟩ = true := by
      rw [collide_congr g _ _ (hcells _ _), hnc]
      simp
    simp only [rotate_with_kick]
    rw [if_pos hO, if_neg hc]
    exact ⟨rfl, hcells _ _, rfl, rfl⟩
  · have hO : (Kind.O == Kind.O && ((-1:Int) == 1 || (-1:Int) == -1)) = true := by decide
    have hc : ¬ collide g ⟨Kind.O, rotAdd pr (-1), px, py, pla, plr⟩ = true := by
      rw [collide_congr g _ _ (hcells _ _), hnc]
      simp
    simp only [rotate_with_kick]
    rw [if_pos hO, if_neg hc]
    exact ⟨rfl, hcells _ _, rfl, rfl⟩
  · have hO : ¬ (Kind.O == Kind.O && ((2:Int) == 1 || (2:Int) == -1)) = true := by decide
    have h2 : ((2:Int) == 2) = true := by decide
    have hpred : (fun d : Int × Int =>
        !collide g ⟨Kind.O, (pr + 2) % 4, px + d.1, py + d.2, pla, plr⟩) ((0:Int), (0:Int)) = true := by
      show (!collide g ⟨Kind.O, (pr + 2) % 4, px + (0:Int), py + (0:Int), pla, plr⟩) = true
      rw [add_zero, add_zero, collide_congr g _ _ (hcells _ _), hnc]
      rfl
    simp only [rotate_with_kick]
    rw [if_neg hO, if_pos h2]
    rw [@List.find?_cons_of_pos _
      (fun d : Int × Int => !collide g ⟨Kind.O, (pr + 2) % 4, px + d.1, py + d.2, pla, plr⟩)
      ((0:Int), (0:Int))
      [(1, 0), (-1, 0), (0, 1), (0, -1), (2, 0), (-2, 0)] hpred]
    refine ⟨rfl, ?_, add_zero px, add_zero py⟩
    dsimp only
    rw [add_zero, add_zero]
    exact hcells _ _

/-- Witness for C9: the O piece at its spawn position on an empty board,
rotated clockwise. -/
theorem o_rotation_noop_witness :
    (Piece.init Kind.O).kind = Kind.O
    ∧ collide emptyGrid (Piece.init Kind.O) = false
    ∧ ((rotate_with_kick emptyGrid (Piece.init Kind.O) 1).1 = true
       ∧ (rotate_with_kick emptyGrid (Piece.init Kind.O) 1).2.cells = (Piece.init Kind.O).cells
       ∧ (rotate_with_kick emptyGrid (Piece.init Kind.O) 1).2.x = (Piece.init Kind.O).x
       ∧ (rotate_with_kick emptyGrid (Piece.init Kind.O) 1).2.y = (Piece.init Kind.O).y) :=
  ⟨by decide, by decide,
   o_rotation_noop emptyGrid (Piece.init Kind.O) 1 (by decide) (by decide) (Or.inl rfl)⟩

/-- While the pool holds exactly `n` kinds, `n` pops return the pool
itself (no refill happens). -/
theorem bag_pops_of_length (s : List Kind) :
    ∀ (n : Nat) (pool : List Kind), pool.length = n → bag_pops s n pool = pool := by
  intro n
  induction n with
  | zero =>
      intro pool h
      rw [List.length_eq_zero] at h
      subst h
      rfl
  | succ n ih =>
      intro pool h
      match pool with
      | a :: t =>
          simp only [bag_pops, bag_pop, List.isEmpty_cons, Bool.false_eq_true, if_false,
            List.headD_cons, List.tail_cons]
          rw [ih t (by simpa using h)]

/-- C8: seven consecutive pops aligned to a bag boundary (the pool has
just been emptied) return exactly the refill permutation, so every one of
the seven kinds appears exactly once among them, whatever permutation the
shuffle produced. -/
theorem bag_window (s : List Kind) (h : s.Perm bagKinds) :
    bag_pops s 7 [] = s ∧ ∀ k : Kind, (bag_pops s 7 []).count k = 1 := by
  have hlen : s.length = 7 := by simpa [bagKinds] using h.length_eq
  obtain ⟨a, t, rfl⟩ : ∃ a t, s = a :: t := by
    cases s with
    | nil => simp at hlen
    | cons a t => exact ⟨a, t, rfl⟩
  have hstep : bag_pops (a :: t) 7 [] = a :: bag_pops (a :: t) 6 t := rfl
  have hmain : bag_pops (a :: t) 7 [] = a :: t := by
    rw [hstep, bag_pops_of_length (a :: t) 6 t (by simpa using hlen)]
  refine ⟨hmain, fun k => ?_⟩
  rw [hmain, h.count_eq]
  cases k <;> decide

/-- Witness for C8 at the identity permutation of the seven kinds. -/
theorem bag_window_witness :
    bagKinds.Perm bagKinds
    ∧ (bag_pops bagKinds 7 [] = bagKinds
       ∧ ∀ k : Kind, (bag_pops bagKinds 7 []).count k = 1) :=
  ⟨List.Perm.refl bagKinds, bag_window bagKinds (List.Perm.refl bagKinds)⟩

/-- The lock sequence adds exactly the pending drop credits
(`soft * 1 + hard * 2`) plus the line-clear gain to the score, and clears
both credits. -/
theorem lock_piece_score (s : List Kind) (g : Game) :
    (Game.lock_piece s g).score
      = g.score + (g.drop_distance_soft : Int) * 1 + (g.drop_distance_hard : Int) * 2
        + g.clearGain
    ∧ (Game.lock_piece s g).drop_distance_soft = 0
    ∧ (Game.lock_piece s g).drop_distance_hard = 0 := by
  rcases hcls : (classifyClear g.lockTspin.1 g.lockTspin.2 g.postClear.2.1).1 with _ | t
  · simp only [Game.lock_piece, Game.clearGain, Game.spawn, hcls]
    refine ⟨by ring, trivial, trivial⟩
  · simp only [Game.lock_piece, Game.clearGain, Game.spawn, hcls]
    refine ⟨by ring, trivial, trivial⟩

/-- C3: a hard drop that travels `M = hardDropDist` accepted cells adds
`M` to the pending hard-drop credit (worth 2 points per cell), and the
lock it triggers adds `soft * 1 + hard * 2` to the score — `2 * M` for
the drop itself — plus the line-clear gain, then zeroes both credits. -/
theorem hard_drop_credit (s : List Kind) (g : Game) :
    g.dropPhase.drop_distance_hard = g.drop_distance_hard + hardDropDist g.board g.cur
    ∧ (Game.hard_drop s g).score
      = g.score + (g.drop_distance_soft : Int) * 1
        + ((g.drop_distance_hard : Int) + (hardDropDist g.board g.cur : Int)) * 2
        + g.dropPhase.clearGain
    ∧ (Game.hard_drop s g).drop_distance_soft = 0
    ∧ (Game.hard_drop s g).drop_distance_hard = 0 := by
  obtain ⟨h1, h2, h3⟩ := lock_piece_score s g.dropPhase
  refine ⟨rfl, ?_, h2, h3⟩
  rw [show Game.hard_drop s g = Game.lock_piece s g.dropPhase from rfl, h1]
  have e1 : g.dropPhase.score = g.score := rfl
  have e2 : g.dropPhase.drop_distance_soft = g.drop_distance_soft := rfl
  have e3 : g.dropPhase.drop_distance_hard
      = g.drop_distance_hard + hardDropDist g.board g.cur := rfl
  rw [e1, e2, e3]
  push_cast
  ring

/-- C10: a hard drop that travels at least one cell tags the piece as
moved, so the T-spin detector of the triggered lock sees `'move'` and
reports no special move; a zero-travel hard drop leaves the previous tag
(possibly a rotation) in place. -/
theorem hard_drop_clears_rotate_tag (g : Game)
    (h : 1 ≤ hardDropDist g.board g.cur) :
    g.dropPhase.cur.last_action = some Act.move
    ∧ g.dropPhase.lockTspin = (false, false)
    ∧ ∀ g2 : Game, hardDropDist g2.board g2.cur = 0 →
        g2.dropPhase.cur.last_action = g2.cur.last_action := by
  have hne : ¬ hardDropDist g.board g.cur = 0 := by omega
  have hla : g.dropPhase.cur.last_action = some Act.move := by
    simp only [Game.dropPhase]
    rw [if_neg hne]
  refine ⟨hla, ?_, ?_⟩
  · simp [Game.lockTspin, is_tspin, hla]
  · intro g2 h2
    simp only [Game.dropPhase]
    rw [if_pos h2]

/-- The session used by the C10 witness: a freshly rotated T high above
an empty board, about to be hard-dropped. -/
def c10Game : Game :=
  { board := emptyGrid
    cur := { kind := Kind.T, rot := 1, x := 3, y := 5,
             last_action := some Act.rotate, lock_resets := 0 }
    queue_items := [Kind.I, Kind.J, Kind.L]
    bag_pool := [Kind.S]
    score := 0
    lines := 0
    level := 1
    combo := -1
    b2b := false
    drop_distance_soft := 0
    drop_distance_hard := 0
    lock_timer := none
    lock_reset_count := 0
    game_over := false }

/-- Witness for C10: the drop travels at least one cell and the detector
is disarmed despite the piece having just rotated. -/
theorem hard_drop_clears_rotate_tag_witness :
    1 ≤ hardDropDist c10Game.board c10Game.cur
    ∧ (c10Game.dropPhase.cur.last_action = some Act.move
       ∧ c10Game.dropPhase.lockTspin = (false, false)
       ∧ ∀ g2 : Game, hardDropDist g2.board g2.cur = 0 →
           g2.dropPhase.cur.last_action = g2.cur.last_action) := by
  have h : 1 ≤ hardDropDist c10Game.board c10Game.cur := by
    rw [hardDropDist]
    exact (Nat.find_pos (exists_collide_down c10Game.board c10Game.cur)).mpr (by decide)
  exact ⟨h, hard_drop_clears_rotate_tag c10Game h⟩

/-- C2: with the back-to-back flag set, a lock that clears four lines (a
tetris; the active piece is not a T, as a T can never produce a 4-line
clear) scores `int(800 * 1.5) = 1200` plus the combo bonus of `50` times
the updated combo counter on top of the drop credits, and the
back-to-back flag remains true. -/
theorem b2b_tetris (s : List Kind) (g : Game)
    (hb : g.b2b = true) (hk : ¬ g.cur.kind = Kind.T)
    (hc : g.postClear.2.1 = 4) :
    (Game.lock_piece s g).score
      = g.score + (g.drop_distance_soft : Int) * 1 + (g.drop_distance_hard : Int) * 2
        + 1200 + 50 * (if 0 ≤ g.combo then g.combo + 1 else 0)
    ∧ (Game.lock_piece s g).b2b = true := by
  have hkb : (g.cur.kind == Kind.T) = false := by
    simpa using hk
  have hts : g.lockTspin = (false, false) := by
    simp [Game.lockTspin, is_tspin, hkb]
  have hcls : classifyClear g.lockTspin.1 g.lockTspin.2 g.postClear.2.1
      = (some LineType.tetris, true) := by
    rw [hts, hc]
    rfl
  simp only [Game.lock_piece, Game.spawn, hcls, hb, SCORE_TABLE]
  constructor
  · norm_num
  · trivial

/-- Four pre-filled rows 18..21 used by the back-to-back witness. -/
def c2Board : Grid :=
  (List.range ROWS).map (fun y => (List.range COLS).map (fun _ =>
    if 18 ≤ y then some Kind.J else none))

/-- The witness session for C2: back-to-back set, combo at 2, an I piece
whose lock leaves the four full rows to clear. -/
def c2Game : Game :=
  { board := c2Board
    cur := Piece.init Kind.I
    queue_items := [Kind.T, Kind.S, Kind.Z]
    bag_pool := [Kind.L]
    score := 0
    lines := 0
    level := 1
    combo := 2
    b2b := true
    drop_distance_soft := 0
    drop_distance_hard := 0
    lock_timer := none
    lock_reset_count := 0
    game_over := false }

/-- Witness for C2 at the concrete four-full-row session. -/
theorem b2b_tetris_witness :
    c2Game.b2b = true
    ∧ ¬ c2Game.cur.kind = Kind.T
    ∧ c2Game.postClear.2.1 = 4
    ∧ ((Game.lock_piece [] c2Game).score
        = c2Game.score + (c2Game.drop_distance_soft : Int) * 1
          + (c2Game.drop_distance_hard : Int) * 2
          + 1200 + 50 * (if 0 ≤ c2Game.combo then c2Game.combo + 1 else 0)
       ∧ (Game.lock_piece [] c2Game).b2b = true) :=
  ⟨rfl, by decide, by decide, b2b_tetris [] c2Game rfl (by decide) (by decide)⟩

/-- C1: a T locked by a rotation whose lock clears exactly one line, with
at least 3 of the 4 rotation corners occupied on the post-clear board and
exactly one front corner occupied, is detected as `(tspin, mini) =
(true, true)`, classified `tspin_mini_single`, and contributes the base
score 200 — adjusted to `int(200 * 1.5) = 300` only by an active
back-to-back — plus the combo bonus. -/
theorem tspin_mini_single_score (s : List Kind) (g : Game)
    (hk : g.cur.kind = Kind.T)
    (ha : g.cur.last_action = some Act.rotate)
    (hc : g.postClear.2.1 = 1)
    (h3 : 3 ≤ occCount g.postClear.1 (cornerCells g.cur))
    (hf : occCount g.postClear.1 (frontCells g.cur) = 1) :
    g.lockTspin = (true, true)
    ∧ (Game.lock_piece s g).score
      = g.score + (g.drop_distance_soft : Int) * 1 + (g.drop_distance_hard : Int) * 2
        + (if g.b2b then (300 : Int) else 200)
        + 50 * (if 0 ≤ g.combo then g.combo + 1 else 0) := by
  have hkb : (g.cur.kind == Kind.T) = true := by simp [hk]
  have hab : (g.cur.last_action == some Act.rotate) = true := by simp [ha]
  have h3' : ¬ occCount g.postClear.1 (cornerCells g.cur) < 3 := by omega
  have hts : g.lockTspin = (true, true) := by
    simp [Game.lockTspin, is_tspin, hkb, hab, hc, h3', hf]
  have hcls : classifyClear g.lockTspin.1 g.lockTspin.2 g.postClear.2.1
      = (some LineType.tspin_mini_single, true) := by
    rw [hts, hc]
    rfl
  refine ⟨hts, ?_⟩
  simp only [Game.lock_piece, Game.spawn, hcls, SCORE_TABLE]
  cases hbv : g.b2b <;> simp [hbv]

/-- The board of the C1 witness: row 19 is full except columns 0..2
(completed by the T), two filled cells end up at the top corners after
the clear shifts rows down, and one filled front corner at `(0,20)`. -/
def c1Board : Grid :=
  (List.range ROWS).map (fun y => (List.range COLS).map (fun x =>
    if (y = 19 ∧ 3 ≤ x) ∨ (y = 17 ∧ (x = 0 ∨ x = 2)) ∨ (y = 20 ∧ x = 0) then some Kind.J
    else none))

/-- The witness session for C1: a freshly rotated T in point-down
orientation at `(0,18)` whose lock clears exactly row 19. -/
def c1Game : Game :=
  { board := c1Board
    cur := { kind := Kind.T, rot := 2, x := 0, y := 18,
             last_action := some Act.rotate, lock_resets := 0 }
    queue_items := [Kind.S, Kind.Z, Kind.O]
    bag_pool := [Kind.L]
    score := 0
    lines := 0
    level := 1
    combo := -1
    b2b := false
    drop_distance_soft := 0
    drop_distance_hard := 0
    lock_timer := none
    lock_reset_count := 0
    game_over := false }

/-- Witness for C1 at the concrete mini T-spin single. -/
theorem tspin_mini_single_score_witness :
    c1Game.cur.kind = Kind.T
    ∧ c1Game.cur.last_action = some Act.rotate
    ∧ c1Game.postClear.2.1 = 1
    ∧ 3 ≤ occCount c1Game.postClear.1 (cornerCells c1Game.cur)
    ∧ occCount c1Game.postClear.1 (frontCells c1Game.cur) = 1
    ∧ (c1Game.lockTspin = (true, true)
       ∧ (Game.lock_piece [] c1Game).score
         = c1Game.score + (c1Game.drop_distance_soft : Int) * 1
           + (c1Game.drop_distance_hard : Int) * 2
           + (if c1Game.b2b then (300 : Int) else 200)
           + 50 * (if 0 ≤ c1Game.combo then c1Game.combo + 1 else 0)) :=
  ⟨rfl, rfl, by decide, by decide, by decide,
   tspin_mini_single_score [] c1Game rfl rfl (by decide) (by decide) (by decide)⟩

/-- Peeling one row off the grid shifts the remaining full-row indices by
one (and prepends index 0 when the head row is full). -/
theorem fullIndices_cons (r : Row) (g : Grid) :
    fullIndices (r :: g)
      = if rowFull r then 0 :: (fullIndices g).map (fun i => i + 1)
        else (fullIndices g).map (fun i => i + 1) := by
  unfold fullIndices
  rw [show (r :: g).length = g.length + 1 from rfl, List.range_succ_eq_map]
  by_cases hr : rowFull r
  · rw [if_pos hr]
    rw [List.filter_cons_of_pos (by simpa using hr)]
    congr 1
    rw [List.filter_map]
    rfl
  · rw [if_neg hr]
    rw [List.filter_cons_of_neg (by simpa using hr)]
    rw [List.filter_map]
    rfl

/-- Deleting at the index right after a prefix removes the element that
follows the prefix. -/
theorem eraseIdx_append_cons (l t : List Row) (a : Row) :
    (l ++ a :: t).eraseIdx l.length = l ++ t := by
  induction l with
  | nil => rfl
  | cons b l ih => simp [List.eraseIdx, ih]

/-- The clearing loop, run over the precomputed ascending full-row
indices: each `del grid[i]` is exactly compensated by the `insert(0, ...)`
for the rows after position `i`, so the loop removes precisely the full
rows and stacks one empty row on top per removal.  Stated with a
generalized accumulator: `k` empty rows already inserted and a prefix `p`
of kept (non-full) rows. -/
theorem foldl_clearStep_eq (g : Grid) :
    ∀ (k : Nat) (p : List Row),
      ((fullIndices g).map (fun i => i + (k + p.length))).foldl clearStep
          (List.replicate k emptyRow ++ (p ++ g))
        = List.replicate (k + g.countP rowFull) emptyRow
          ++ (p ++ g.filter (fun r => !rowFull r)) := by
  induction g with
  | nil =>
      intro k p
      simp [fullIndices]
  | cons r g ih =>
      intro k p
      rw [fullIndices_cons]
      by_cases hr : rowFull r
      · rw [if_pos hr, List.map_cons, List.foldl_cons]
        have hstep : clearStep (List.replicate k emptyRow ++ (p ++ r :: g)) (0 + (k + p.length))
            = List.replicate (k + 1) emptyRow ++ (p ++ g) := by
          rw [clearStep]
          rw [show List.replicate k emptyRow ++ (p ++ r :: g)
              = (List.replicate k emptyRow ++ p) ++ r :: g by
            rw [List.append_assoc]]
          rw [show (0 + (k + p.length)) = (List.replicate k emptyRow ++ p).length by
            simp]
          rw [eraseIdx_append_cons]
          simp [List.replicate_succ, List.append_assoc]
        rw [hstep, List.map_map]
        rw [show ((fun i => i + (k + p.length)) ∘ fun i => i + 1)
            = fun i => i + ((k + 1) + p.length) by
          funext i
          simp [Function.comp]
          omega]
        rw [ih (k + 1) p]
        rw [List.countP_cons_of_pos _ _ hr]
        rw [List.filter_cons_of_neg (by simp [hr])]
        rw [show k + (g.countP rowFull + 1) = (k + 1) + g.countP rowFull by omega]
      · have hr' : rowFull r = false := by
          revert hr
          cases rowFull r <;> simp
        rw [if_neg hr, List.map_map]
        rw [show ((fun i => i + (k + p.length)) ∘ fun i => i + 1)
            = fun i => i + (k + (p ++ [r]).length) by
          funext i
          simp [Function.comp]
          omega]
        rw [show List.replicate k emptyRow ++ (p ++ r :: g)
            = List.replicate k emptyRow ++ ((p ++ [r]) ++ g) by
          simp [List.append_assoc]]
        rw [ih k (p ++ [r])]
        rw [List.countP_cons_of_neg _ _ (by simp [hr'])]
        rw [List.filter_cons_of_pos (by simp [hr'])]
        simp [List.append_assoc]

/-- The number of full-row indices is the number of full rows. -/
theorem fullIndices_length (g : Grid) : (fullIndices g).length = g.countP rowFull := by
  induction g with
  | nil => rfl
  | cons r g ih =>
      rw [fullIndices_cons]
      by_cases hr : rowFull r
      · rw [if_pos hr]
        simp [ih, List.countP_cons_of_pos _ _ hr]
      · have hr' : rowFull r = false := by
          revert hr
          cases rowFull r <;> simp
        rw [if_neg hr]
        simp [ih, List.countP_cons_of_neg _ _ hr]

/-- C6: `clear_lines` removes exactly the full rows (every cell
non-empty), pushes the same number of empty rows onto the top, keeps all
remaining rows in their original relative order (the result is literally
the empty rows followed by the filtered grid), and returns the count of
removed rows together with their original pre-removal indices. -/
theorem clear_lines_spec (g : Grid) :
    (clear_lines g).1
      = List.replicate (g.countP rowFull) emptyRow ++ g.filter (fun r => !rowFull r)
    ∧ (clear_lines g).2.1 = g.countP rowFull
    ∧ (clear_lines g).2.2 = fullIndices g
    ∧ ∀ i : Nat, i ∈ (clear_lines g).2.2 ↔ i < g.length ∧ rowFull (g.getD i []) = true := by
  refine ⟨?_, fullIndices_length g, rfl, ?_⟩
  · have h0 := foldl_clearStep_eq g 0 []
    simp at h0
    exact h0
  · intro i
    show i ∈ fullIndices g ↔ _
    simp [fullIndices, List.mem_filter, List.mem_range]
